import Mathlib

/-!
Shallow embedding of the match-lifecycle and court-allocation logic of the
pickleball tournament app, taken from:

* `src/components/MatchCard.tsx` — score entry, submit / confirm / dispute /
  resolve gating, winner highlighting;
* `src/components/CourtAllocation.tsx` — the court board: waiting matches,
  assign buttons, start / finish buttons;
* `src/services/firebase.ts` — the persistence primitives (`updateCourt`).

Operations of the coordinator engine that the spec describes but that are not
among the provided sources (they live in the `TournamentManager` parent
component and `src/types.ts`) are modelled from the spec and marked as such in
their doc comments.
-/

namespace MatchCard

/-- Lifecycle status of a match (`Match['status']` from `src/types.ts`, the
values enumerated in the `statusLabel` switch of `MatchCard.tsx`). -/
inductive MatchStatus
  | pending
  | in_progress
  | pending_confirmation
  | completed
  | disputed
  deriving DecidableEq

/-- Team data as carried by `MatchDisplay` (`{ id; name; players }`; we keep
the player list as the list of player names). -/
structure TeamInfo where
  id : String
  name : String
  players : List String
  deriving DecidableEq

/-- The `MatchDisplay` view model of `MatchCard.tsx` (lines 6–20). `score1`
and `score2` are `number | null`, modelled as `Option Int`. -/
structure MatchDisplay where
  id : String
  team1 : TeamInfo
  team2 : TeamInfo
  score1 : Option Int
  score2 : Option Int
  status : MatchStatus
  roundNumber : Nat
  court : Option String
  isWaitingOnYou : Option Bool
  canCurrentUserConfirm : Option Bool
  canCurrentUserStart : Option Bool
  deriving DecidableEq

/-- The action tag of the `onUpdateScore` callback
(`'submit' | 'confirm' | 'dispute'`, `MatchCard.tsx` line 29). -/
inductive ScoreAction
  | submit
  | confirm
  | dispute
  deriving DecidableEq

/-- One invocation of `onUpdateScore(matchId, score1, score2, action, reason?)`
(`MatchCard.tsx` lines 25–31). -/
structure UpdateScoreCall where
  matchId : String
  score1 : Int
  score2 : Int
  action : ScoreAction
  reason : Option String
  deriving DecidableEq

/-- The score input fields `s1`/`s2` are strings parsed with
`parseInt(s, 10)`; the parse yields either an integer or `NaN`
(`MatchCard.tsx` lines 63–64). We model the parsed result as `Option Int`
(`none` = `NaN`). `scoresFilled` is
`!Number.isNaN(parsedS1) && !Number.isNaN(parsedS2)` (line 66). -/
def scoresFilled (parsedS1 parsedS2 : Option Int) : Bool :=
  parsedS1.isSome && parsedS2.isSome

/-- `canSubmit` (`MatchCard.tsx` lines 68–72): scores filled and status not
`completed`, not `disputed`, not `pending_confirmation`. -/
def canSubmit (m : MatchDisplay) (parsedS1 parsedS2 : Option Int) : Bool :=
  scoresFilled parsedS1 parsedS2 &&
    decide (m.status ≠ .completed) &&
    decide (m.status ≠ .disputed) &&
    decide (m.status ≠ .pending_confirmation)

/-- `canResolveSubmit` (`MatchCard.tsx` lines 74–75): scores filled, status
`disputed`, and the current user is an organizer. -/
def canResolveSubmit (m : MatchDisplay) (parsedS1 parsedS2 : Option Int)
    (isOrganizer : Bool) : Bool :=
  scoresFilled parsedS1 parsedS2 && decide (m.status = .disputed) && isOrganizer

/-- `hasScore` (`MatchCard.tsx` line 77): both stored scores non-null. -/
def hasScore (m : MatchDisplay) : Bool :=
  m.score1.isSome && m.score2.isSome

/-- `team1IsWinner` (`MatchCard.tsx` lines 79–80):
`hasScore && (match.score1 ?? 0) > (match.score2 ?? 0)`. -/
def team1IsWinner (m : MatchDisplay) : Bool :=
  hasScore m && decide (m.score1.getD 0 > m.score2.getD 0)

/-- `team2IsWinner` (`MatchCard.tsx` lines 81–82):
`hasScore && (match.score2 ?? 0) > (match.score1 ?? 0)`. -/
def team2IsWinner (m : MatchDisplay) : Bool :=
  hasScore m && decide (m.score2.getD 0 > m.score1.getD 0)

/-- `handleSubmitClick` (`MatchCard.tsx` lines 118–121): returns early unless
`canSubmit`, else invokes `onUpdateScore(match.id, parsedS1, parsedS2,
'submit')`. The result is the invocation performed, if any. When `canSubmit`
is true both parses are `some`, so `getD 0` is exactly the parsed value. -/
def handleSubmitClick (m : MatchDisplay) (parsedS1 parsedS2 : Option Int) :
    Option UpdateScoreCall :=
  if canSubmit m parsedS1 parsedS2 then
    some { matchId := m.id, score1 := parsedS1.getD 0, score2 := parsedS2.getD 0,
           action := .submit, reason := none }
  else none

/-- `handleResolveClick` (`MatchCard.tsx` lines 123–126): returns early unless
`canResolveSubmit`, else invokes `onUpdateScore(match.id, parsedS1, parsedS2,
'submit')` — the same call shape and action tag as `handleSubmitClick`. -/
def handleResolveClick (m : MatchDisplay) (parsedS1 parsedS2 : Option Int)
    (isOrganizer : Bool) : Option UpdateScoreCall :=
  if canResolveSubmit m parsedS1 parsedS2 isOrganizer then
    some { matchId := m.id, score1 := parsedS1.getD 0, score2 := parsedS2.getD 0,
           action := .submit, reason := none }
  else none

/-- `handleConfirmClick` (`MatchCard.tsx` lines 128–136): returns early unless
`hasScore`, else invokes `onUpdateScore(match.id, match.score1 ?? 0,
match.score2 ?? 0, 'confirm')`. -/
def handleConfirmClick (m : MatchDisplay) : Option UpdateScoreCall :=
  if hasScore m then
    some { matchId := m.id, score1 := m.score1.getD 0, score2 := m.score2.getD 0,
           action := .confirm, reason := none }
  else none

/-- The `reason || undefined` coercion of `handleDisputeClick`
(`MatchCard.tsx` line 149): `window.prompt` returns a string or null; an
empty or null reason becomes `undefined`. -/
def normalizeReason : Option String → Option String
  | some s => if s = "" then none else some s
  | none => none

/-- `handleDisputeClick` (`MatchCard.tsx` lines 138–151): returns early unless
`hasScore`, else prompts for a reason and invokes
`onUpdateScore(match.id, match.score1 ?? 0, match.score2 ?? 0, 'dispute',
reason || undefined)`. `promptResult` is what `window.prompt` returned. -/
def handleDisputeClick (m : MatchDisplay) (promptResult : Option String) :
    Option UpdateScoreCall :=
  if hasScore m then
    some { matchId := m.id, score1 := m.score1.getD 0, score2 := m.score2.getD 0,
           action := .dispute, reason := normalizeReason promptResult }
  else none

end MatchCard

namespace CourtAllocation

/-- Occupancy status of a match on the court board
(`CourtAllocation.tsx` line 8). -/
inductive MatchStatus
  | WAITING
  | ASSIGNED
  | IN_PROGRESS
  | COMPLETED
  deriving DecidableEq

/-- Court status (`CourtAllocation.tsx` line 9). -/
inductive CourtStatus
  | AVAILABLE
  | ASSIGNED
  | IN_USE
  | OUT_OF_SERVICE
  deriving DecidableEq

/-- `Court` (`CourtAllocation.tsx` lines 11–16); `currentMatchId?` is
optional. -/
structure Court where
  id : String
  name : String
  status : CourtStatus
  currentMatchId : Option String
  deriving DecidableEq

/-- `CourtMatch` view model (`CourtAllocation.tsx` lines 23–32). -/
structure CourtMatch where
  id : String
  division : String
  roundLabel : String
  matchLabel : String
  teamAName : String
  teamBName : String
  status : MatchStatus
  courtId : Option String
  deriving DecidableEq

/-- `waitingMatches` (`CourtAllocation.tsx` line 67):
`matches.filter((m) => m.status === "WAITING")`. -/
def waitingMatches (ms : List CourtMatch) : List CourtMatch :=
  ms.filter fun m => decide (m.status = .WAITING)

/-- `getMatchForCourt` (`CourtAllocation.tsx` lines 70–71):
`matches.find((m) => m.id === court.currentMatchId)`. When
`currentMatchId` is absent the comparison is false for every match. -/
def getMatchForCourt (ms : List CourtMatch) (court : Court) :
    Option CourtMatch :=
  ms.find? fun m => decide (some m.id = court.currentMatchId)

/-- The courts offered in the per-match assign list
(`CourtAllocation.tsx` line 150): `courts.filter((c) => c.status ===
"AVAILABLE")`. -/
def availableCourts (courts : List Court) : List Court :=
  courts.filter fun c => decide (c.status = .AVAILABLE)

/-- The `(matchId, courtId)` pairs for which the component renders an assign
button calling `onAssignMatchToCourt(match.id, court.id)`
(`CourtAllocation.tsx` lines 127–161): one button per waiting match per
available court. -/
def assignButtonPairs (courts : List Court) (ms : List CourtMatch) :
    List (String × String) :=
  (waitingMatches ms).flatMap fun m =>
    (availableCourts courts).map fun c => (m.id, c.id)

/-- Whether the component renders the Finish Match button invoking
`onFinishMatchOnCourt(court.id)` (`CourtAllocation.tsx` lines 226–233):
the sole condition is `court.status === "IN_USE"`; the bound match is not
consulted. -/
def showFinishButton (court : Court) : Bool :=
  decide (court.status = .IN_USE)

/-- Whether the component renders the Start Match button invoking
`onStartMatchOnCourt(court.id)` (`CourtAllocation.tsx` lines 218–225). -/
def showStartButton (court : Court) : Bool :=
  decide (court.status = .ASSIGNED)

end CourtAllocation

namespace Engine

/-- The error kinds of the coordinator engine (spec §7). The engine itself
(the `TournamentManager` handlers behind `onUpdateScore` and the court
callbacks) is not among the provided sources; the operations below are
modelled from the spec. -/
inductive OpError
  | invalidTransition
  | unauthorized
  | invalidInput
  | resourceConflict
  | resourceUnavailable
  deriving DecidableEq

/-- Modelled from the spec: the `Match` entity (spec §3) as stored; its type
lives in `src/types.ts`, which is not among the provided sources. Scores are
optional integers, `submittedBy` the identity of the last submitter,
`disputeReason` present only while disputed. -/
structure MatchDoc where
  id : String
  status : MatchCard.MatchStatus
  score1 : Option Int
  score2 : Option Int
  courtId : Option String
  submittedBy : Option String
  disputeReason : Option String
  deriving DecidableEq

/-- Modelled from the spec: `confirmScore(match, actor)` (spec §4.1), which is
implemented outside the provided sources (`MatchCard` only consumes the
precomputed `canCurrentUserConfirm` flag). Valid only from
`pending_confirmation`; always fails when the actor is the submitter
(spec §8: self-confirmation is rejected even for organizers); otherwise a
participant or an organizer completes the match. `isPart`/`isOrg` are the
authorization collaborator's answers for the actor (spec §6). -/
def confirmScore (m : MatchDoc) (actorId : String) (isPart isOrg : Bool) :
    Except OpError MatchDoc :=
  if m.status ≠ .pending_confirmation then .error .invalidTransition
  else if m.submittedBy = some actorId then .error .unauthorized
  else if isPart || isOrg then .ok { m with status := .completed }
  else .error .unauthorized

/-- Modelled from the spec: `disputeScore(match, actor, reason)` (spec §4.1),
implemented outside the provided sources. Same gating as `confirmScore`;
sets `disputeReason` and transitions to `disputed`, retaining the submitted
score. -/
def disputeScore (m : MatchDoc) (actorId : String) (isPart isOrg : Bool)
    (reason : Option String) : Except OpError MatchDoc :=
  if m.status ≠ .pending_confirmation then .error .invalidTransition
  else if m.submittedBy = some actorId then .error .unauthorized
  else if isPart || isOrg then
    .ok { m with status := .disputed, disputeReason := reason }
  else .error .unauthorized

/-- Modelled from the spec: `resolveDispute(match, actor, score1, score2)`
(spec §4.1), implemented outside the provided sources. Valid only from
`disputed`, organizer-only; rejects negative or tied scores (spec §4.1
tie-break policy); transitions directly to `completed` with the
organizer-supplied score (clearing `disputeReason`, which per spec §3 is
present only while disputed). -/
def resolveDispute (m : MatchDoc) (isOrg : Bool) (a b : Int) :
    Except OpError MatchDoc :=
  if m.status ≠ .disputed then .error .invalidTransition
  else if isOrg = false then .error .unauthorized
  else if a < 0 ∨ b < 0 then .error .invalidInput
  else if a = b then .error .invalidInput
  else .ok { m with status := .completed, score1 := some a, score2 := some b,
                    disputeReason := none }

/-- Modelled from the spec: `finishOnCourt(court)` (spec §4.2), implemented
outside the provided sources (the component only invokes
`onFinishMatchOnCourt`). Valid only if the court is `IN_USE` and the bound
match has reached `completed`; then it frees the court and clears the
match's binding. An error result applies no state change (spec §7: every
failed operation leaves all entities exactly as they were). -/
def finishOnCourt (c : CourtAllocation.Court) (m : MatchDoc) :
    Except OpError (CourtAllocation.Court × MatchDoc) :=
  if c.status ≠ .IN_USE then .error .invalidTransition
  else if c.currentMatchId ≠ some m.id then .error .resourceUnavailable
  else if m.status ≠ .completed then .error .invalidTransition
  else .ok ({ c with status := .AVAILABLE, currentMatchId := none },
            { m with courtId := none })

end Engine

namespace CourtRace

open CourtAllocation

/-- `updateCourt` (`src/services/firebase.ts` lines 381–383): an unconditional
`updateDoc` on the court document, patching the given fields. It performs no
read, checks no precondition, and has no failure mode other than the network:
every call commits. Here the patched fields are the ones the assign flow
writes (spec §4.2): `status` and `currentMatchId`. -/
def updateCourt (c : Court) (status : CourtStatus) (mid : Option String) :
    Court :=
  { c with status := status, currentMatchId := mid }

/-- Outcome of one organizer's assign attempt. -/
inductive AssignOutcome
  | success
  | notOffered
  deriving DecidableEq

/-- State of a two-caller race on one court: the authoritative court document
plus each caller's rendered snapshot and outcome. -/
structure AssignState where
  court : Court
  snap1 : Option Court
  snap2 : Option Court
  out1 : Option AssignOutcome
  out2 : Option AssignOutcome
  deriving DecidableEq

/-- Atomic events of the race: each caller first reads the court (the
snapshot its UI renders from), then — if its snapshot showed the court
`AVAILABLE`, so the assign button was offered (`CourtAllocation.tsx` line
150) — clicks, firing `updateCourt` with `status = ASSIGNED` and
`currentMatchId = match.id` (spec §4.2). -/
inductive AssignEv
  | read1
  | read2
  | write1
  | write2
  deriving DecidableEq

/-- One step of the race: reads record the current court; a write commits
unconditionally (that is `updateDoc`) whenever the caller's snapshot showed
the court `AVAILABLE`, else the button was never offered. -/
def assignStep (mid1 mid2 : String) (s : AssignState) : AssignEv → AssignState
  | .read1 => { s with snap1 := some s.court }
  | .read2 => { s with snap2 := some s.court }
  | .write1 =>
      match s.snap1 with
      | some c =>
          if c.status = .AVAILABLE then
            { s with court := updateCourt s.court .ASSIGNED (some mid1),
                     out1 := some .success }
          else { s with out1 := some .notOffered }
      | none => s
  | .write2 =>
      match s.snap2 with
      | some c =>
          if c.status = .AVAILABLE then
            { s with court := updateCourt s.court .ASSIGNED (some mid2),
                     out2 := some .success }
          else { s with out2 := some .notOffered }
      | none => s

/-- Run a schedule of race events from an initial court, caller 1 assigning
match `mid1` and caller 2 assigning match `mid2`. -/
def runAssign (court : Court) (mid1 mid2 : String) (sched : List AssignEv) :
    AssignState :=
  sched.foldl (assignStep mid1 mid2)
    { court := court, snap1 := none, snap2 := none, out1 := none, out2 := none }

end CourtRace

/-! Concrete example values used by witnesses and counterexamples. -/

/-- A `MatchDisplay` with fixed display fields and the given id, status and
stored scores. -/
def mkDisplay (id : String) (st : MatchCard.MatchStatus)
    (s1 s2 : Option Int) : MatchCard.MatchDisplay :=
  { id := id, team1 := { id := "t1", name := "Alpha", players := [] },
    team2 := { id := "t2", name := "Beta", players := [] },
    score1 := s1, score2 := s2, status := st, roundNumber := 1, court := none,
    isWaitingOnYou := none, canCurrentUserConfirm := none,
    canCurrentUserStart := none }

/-- A `MatchDoc` with the given id, status, scores and submitter. -/
def mkDoc (id : String) (st : MatchCard.MatchStatus) (s1 s2 : Option Int)
    (sub : Option String) : Engine.MatchDoc :=
  { id := id, status := st, score1 := s1, score2 := s2, courtId := none,
    submittedBy := sub, disputeReason := none }

/-- A `CourtMatch` with fixed display fields and the given id, occupancy
status and court binding. -/
def mkCourtMatch (id : String) (st : CourtAllocation.MatchStatus)
    (cid : Option String) : CourtAllocation.CourtMatch :=
  { id := id, division := "Open", roundLabel := "Round 1",
    matchLabel := "Match 1", teamAName := "A", teamBName := "B",
    status := st, courtId := cid }

/-- A court that is `IN_USE` hosting match `m1`. -/
def c1Court : CourtAllocation.Court :=
  { id := "c1", name := "Court A", status := .IN_USE,
    currentMatchId := some "m1" }

/-- The match bound to `c1Court`, still `IN_PROGRESS` on the board. -/
def c1Match : CourtAllocation.CourtMatch := mkCourtMatch "m1" .IN_PROGRESS (some "c1")

/-- A court that is `IN_USE` hosting match `m9`. -/
def c1wCourt : CourtAllocation.Court :=
  { id := "c9", name := "Court D", status := .IN_USE,
    currentMatchId := some "m9" }

/-- The stored match bound to `c1wCourt`, still `in_progress`. -/
def c1wDoc : Engine.MatchDoc := mkDoc "m9" .in_progress (some 4) (some 2) (some "p1")

/-- An in-progress match with empty score fields. -/
def c2EqMatch : MatchCard.MatchDisplay := mkDisplay "m1" .in_progress none none

/-- A disputed match carrying a tied stored score. -/
def c2DispMatch : MatchCard.MatchDisplay := mkDisplay "m2" .disputed (some 7) (some 7)

/-- A match awaiting confirmation, submitted by `p1`. -/
def c3Doc : Engine.MatchDoc := mkDoc "m4" .pending_confirmation (some 11) (some 9) (some "p1")

/-- An available court with no bound match. -/
def c4Court : CourtAllocation.Court :=
  { id := "courtA", name := "Court A", status := .AVAILABLE, currentMatchId := none }

/-- The interleaved schedule: both callers read before either writes. -/
def c4RaceSched : List CourtRace.AssignEv := [.read1, .read2, .write1, .write2]

/-- One available court for the assign-gating witness. -/
def c5Courts : List CourtAllocation.Court :=
  [{ id := "c1", name := "Court A", status := .AVAILABLE, currentMatchId := none }]

/-- One waiting match for the assign-gating witness. -/
def c5Ms : List CourtAllocation.CourtMatch := [mkCourtMatch "m1" .WAITING none]

/-- A disputed match awaiting organizer resolution, submitted by `p1`. -/
def c7Doc : Engine.MatchDoc := mkDoc "m7" .disputed (some 11) (some 9) (some "p1")

/-- A match awaiting confirmation with score 11–9. -/
def c8Match : MatchCard.MatchDisplay := mkDisplay "m8" .pending_confirmation (some 11) (some 9)

/-- A disputed match for the resolve-callback witness. -/
def c9Match : MatchCard.MatchDisplay := mkDisplay "m9" .disputed (some 4) (some 6)

/-- A completed match with a tied stored score. -/
def c10Match : MatchCard.MatchDisplay := mkDisplay "mX" .completed (some 5) (some 5)

/-! Claim theorems. -/

/-- C1 counterexample: the component renders the Finish Match button for
`c1Court` (status `IN_USE`) although the match bound to it is still
`IN_PROGRESS`, not `COMPLETED` — the finish action is offered without the
claimed combined precondition. -/
theorem c1_finish_offered_while_in_progress :
    CourtAllocation.showFinishButton c1Court = true ∧
    CourtAllocation.getMatchForCourt [c1Match] c1Court = some c1Match ∧
    c1Match.status ≠ CourtAllocation.MatchStatus.COMPLETED := by decide

/-- C1 (amended): the component offers the finish action exactly when the
court's status is `IN_USE`, without consulting the bound match; the
spec-modelled `finishOnCourt` coordinator operation, called while the bound
match is still `in_progress`, fails with `InvalidTransition` (and, failing,
applies no state change, so the court remains `IN_USE`). -/
theorem c1_finish_gating_amended :
    (∀ c : CourtAllocation.Court,
      CourtAllocation.showFinishButton c = true ↔ c.status = .IN_USE) ∧
    (∀ (c : CourtAllocation.Court) (m : Engine.MatchDoc),
      c.status = .IN_USE → c.currentMatchId = some m.id →
      m.status = .in_progress →
      Engine.finishOnCourt c m = .error .invalidTransition) := by
  constructor
  · intro c
    simp [CourtAllocation.showFinishButton]
  · intro c m hc hbind hm
    simp [Engine.finishOnCourt, hc, hbind, hm]

/-- C1 witness: the amended theorem applied to a concrete `IN_USE` court
bound to a concrete `in_progress` match. -/
theorem c1_finish_gating_witness :
    Engine.finishOnCourt c1wCourt c1wDoc = .error .invalidTransition :=
  c1_finish_gating_amended.2 c1wCourt c1wDoc rfl rfl rfl

/-- C2 counterexample: tied scores `5–5` pass `canSubmit` on an in-progress
match and the submit click goes through with them; negative scores also pass;
tied scores `7–7` pass `canResolveSubmit` for an organizer on a disputed
match and the resolve click goes through — no invalid-input rejection occurs
on either path. -/
theorem c2_tied_scores_not_rejected :
    MatchCard.canSubmit c2EqMatch (some 5) (some 5) = true ∧
    MatchCard.handleSubmitClick c2EqMatch (some 5) (some 5) =
      some { matchId := "m1", score1 := 5, score2 := 5,
             action := .submit, reason := none } ∧
    MatchCard.canSubmit c2EqMatch (some (-3)) (some (-1)) = true ∧
    MatchCard.canResolveSubmit c2DispMatch (some 7) (some 7) true = true ∧
    MatchCard.handleResolveClick c2DispMatch (some 7) (some 7) true =
      some { matchId := "m2", score1 := 7, score2 := 7,
             action := .submit, reason := none } := by decide

/-- C2 (amended): the component performs no equality or non-negativity
validation: for any integers entered (equal or negative included), the
submit path on a `pending`/`in_progress` match and the organizer resolve
path on a `disputed` match invoke the score-update callback with those
scores unmodified. -/
theorem c2_no_component_validation :
    ∀ (m : MatchCard.MatchDisplay) (a b : Int),
      ((m.status = .pending ∨ m.status = .in_progress) →
        MatchCard.handleSubmitClick m (some a) (some b) =
          some { matchId := m.id, score1 := a, score2 := b,
                 action := .submit, reason := none }) ∧
      (m.status = .disputed →
        MatchCard.handleResolveClick m (some a) (some b) true =
          some { matchId := m.id, score1 := a, score2 := b,
                 action := .submit, reason := none }) := by
  intro m a b
  constructor
  · intro h
    rcases h with h | h <;>
      simp [MatchCard.handleSubmitClick, MatchCard.canSubmit,
            MatchCard.scoresFilled, h]
  · intro h
    simp [MatchCard.handleResolveClick, MatchCard.canResolveSubmit,
          MatchCard.scoresFilled, h]

/-- C2 witness: the amended theorem applied to a concrete in-progress match
with tied scores 5–5. -/
theorem c2_no_component_validation_witness :
    MatchCard.handleSubmitClick (mkDisplay "m3" .in_progress none none)
        (some 5) (some 5) =
      some { matchId := (mkDisplay "m3" .in_progress none none).id,
             score1 := 5, score2 := 5, action := .submit, reason := none } :=
  (c2_no_component_validation (mkDisplay "m3" .in_progress none none) 5 5).1
    (Or.inr rfl)

/-- C3: for every match in `pending_confirmation`, both `confirmScore` and
`disputeScore` fail with `Unauthorized` whenever the acting user equals
`submittedBy`, whatever the actor's participant or organizer capability —
self-confirmation is always rejected. -/
theorem c3_self_confirmation_rejected :
    ∀ (m : Engine.MatchDoc) (actorId : String) (isPart isOrg : Bool)
      (reason : Option String),
      m.status = .pending_confirmation → m.submittedBy = some actorId →
      Engine.confirmScore m actorId isPart isOrg = .error .unauthorized ∧
      Engine.disputeScore m actorId isPart isOrg reason =
        .error .unauthorized := by
  intro m actorId isPart isOrg reason hst hsub
  constructor <;>
    simp [Engine.confirmScore, Engine.disputeScore, hst, hsub]

/-- C3 witness: the submitter `p1` can neither confirm nor dispute their own
submission on a concrete pending-confirmation match. -/
theorem c3_self_confirmation_witness :
    Engine.confirmScore c3Doc "p1" true false = .error .unauthorized ∧
    Engine.disputeScore c3Doc "p1" true false (some "bad call") =
      .error .unauthorized :=
  c3_self_confirmation_rejected c3Doc "p1" true false (some "bad call") rfl rfl

/-- C4 counterexample: in the interleaved schedule where both callers read
the `AVAILABLE` court before either writes, both assign attempts succeed —
`updateCourt` is an unconditional update with no conflict detection — and
the second write silently overwrites `currentMatchId` with `m2`. -/
theorem c4_race_both_succeed :
    (CourtRace.runAssign c4Court "m1" "m2" c4RaceSched).out1 = some .success ∧
    (CourtRace.runAssign c4Court "m1" "m2" c4RaceSched).out2 = some .success ∧
    (CourtRace.runAssign c4Court "m1" "m2" c4RaceSched).court.currentMatchId =
      some "m2" := by decide

/-- C4 (amended): because `updateCourt` commits unconditionally, two
interleaved `assignToCourt` calls on the same `AVAILABLE` court can both
succeed (last write wins); exactly-one-success holds only for sequential
executions, where the second caller's snapshot no longer shows the court
`AVAILABLE` and the assign button is not offered. -/
theorem c4_sequential_exactly_one :
    ∀ (c : CourtAllocation.Court) (mid1 mid2 : String),
      c.status = .AVAILABLE →
      (CourtRace.runAssign c mid1 mid2 [.read1, .write1, .read2, .write2]).out1 =
        some .success ∧
      (CourtRace.runAssign c mid1 mid2 [.read1, .write1, .read2, .write2]).out2 =
        some .notOffered ∧
      (CourtRace.runAssign c mid1 mid2
          [.read1, .write1, .read2, .write2]).court.currentMatchId =
        some mid1 := by
  intro c mid1 mid2 h
  simp [CourtRace.runAssign, CourtRace.assignStep, CourtRace.updateCourt, h]

/-- C4 witness: the sequential schedule on a concrete available court has the
first caller succeed and the second not offered. -/
theorem c4_sequential_witness :
    (CourtRace.runAssign c4Court "m5" "m6" [.read1, .write1, .read2, .write2]).out1 =
      some .success ∧
    (CourtRace.runAssign c4Court "m5" "m6" [.read1, .write1, .read2, .write2]).out2 =
      some .notOffered ∧
    (CourtRace.runAssign c4Court "m5" "m6"
        [.read1, .write1, .read2, .write2]).court.currentMatchId =
      some "m5" :=
  c4_sequential_exactly_one c4Court "m5" "m6" rfl

/-- C5: every `(matchId, courtId)` pair for which the component renders an
assign button comes from a match in the list whose status is `WAITING` and a
court in the list whose status is `AVAILABLE`. -/
theorem c5_assign_gating :
    ∀ (courts : List CourtAllocation.Court)
      (ms : List CourtAllocation.CourtMatch) (mid cid : String),
      (mid, cid) ∈ CourtAllocation.assignButtonPairs courts ms →
      (∃ m ∈ ms, m.id = mid ∧ m.status = .WAITING) ∧
      (∃ c ∈ courts, c.id = cid ∧ c.status = .AVAILABLE) := by
  intro courts ms mid cid hmem
  unfold CourtAllocation.assignButtonPairs at hmem
  rw [List.mem_flatMap] at hmem
  obtain ⟨m, hmw, hpair⟩ := hmem
  rw [List.mem_map] at hpair
  obtain ⟨c, hca, heq⟩ := hpair
  injection heq with hid hcid
  rw [CourtAllocation.waitingMatches, List.mem_filter] at hmw
  rw [CourtAllocation.availableCourts, List.mem_filter] at hca
  exact ⟨⟨m, hmw.1, hid, of_decide_eq_true hmw.2⟩,
         ⟨c, hca.1, hcid, of_decide_eq_true hca.2⟩⟩

/-- C5 witness: the gating theorem applied to a concrete one-court,
one-match board where the pair is offered. -/
theorem c5_assign_gating_witness :
    (∃ m ∈ c5Ms, m.id = "m1" ∧ m.status = .WAITING) ∧
    (∃ c ∈ c5Courts, c.id = "c1" ∧ c.status = .AVAILABLE) :=
  c5_assign_gating c5Courts c5Ms "m1" "c1" (by decide)

/-- C6: the submit action is enabled exactly when both score fields are
filled and the match status is `pending` or `in_progress` — never from
`pending_confirmation`, `completed`, or `disputed`. -/
theorem c6_submit_status_gate :
    ∀ (m : MatchCard.MatchDisplay) (p1 p2 : Option Int),
      MatchCard.canSubmit m p1 p2 = true ↔
        (MatchCard.scoresFilled p1 p2 = true ∧
          (m.status = .pending ∨ m.status = .in_progress)) := by
  intro m p1 p2
  cases h : m.status <;> simp [MatchCard.canSubmit, h]

/-- C7: the organizer resolve action is enabled exactly when the match is
`disputed`, both score fields are filled, and the actor is an organizer; and
the spec-modelled `resolveDispute`, given a valid (non-negative, untied)
organizer score, directly produces the `completed` match carrying exactly
that score. -/
theorem c7_resolve_gating :
    (∀ (m : MatchCard.MatchDisplay) (p1 p2 : Option Int) (isOrg : Bool),
      MatchCard.canResolveSubmit m p1 p2 isOrg = true ↔
        (MatchCard.scoresFilled p1 p2 = true ∧ m.status = .disputed ∧
          isOrg = true)) ∧
    (∀ (m : Engine.MatchDoc) (a b : Int),
      m.status = .disputed → 0 ≤ a → 0 ≤ b → a ≠ b →
      Engine.resolveDispute m true a b =
        .ok { m with status := .completed, score1 := some a,
                     score2 := some b, disputeReason := none }) := by
  constructor
  · intro m p1 p2 isOrg
    simp [MatchCard.canResolveSubmit, and_assoc]
  · intro m a b hst ha hb hab
    have h1 : ¬(a < 0 ∨ b < 0) := by omega
    simp [Engine.resolveDispute, hst, h1, hab]

/-- C7 witness: resolving a concrete disputed match with organizer score
9–11 yields the completed match with that score. -/
theorem c7_resolve_witness :
    Engine.resolveDispute c7Doc true 9 11 =
      .ok { c7Doc with status := .completed, score1 := some 9,
                       score2 := some 11, disputeReason := none } :=
  c7_resolve_gating.2 c7Doc 9 11 rfl (by decide) (by decide) (by decide)

/-- C8: for every match whose two scores are present, the dispute click
passes the stored `score1` and `score2` through unmodified, with action
`dispute` and only the (normalized) prompt reason added. -/
theorem c8_dispute_preserves_score :
    ∀ (m : MatchCard.MatchDisplay) (a b : Int) (promptResult : Option String),
      m.score1 = some a → m.score2 = some b →
      MatchCard.handleDisputeClick m promptResult =
        some { matchId := m.id, score1 := a, score2 := b, action := .dispute,
               reason := MatchCard.normalizeReason promptResult } := by
  intro m a b pr h1 h2
  simp [MatchCard.handleDisputeClick, MatchCard.hasScore, h1, h2]

/-- C8 witness: disputing a concrete 11–9 match passes 11 and 9 through with
the entered reason. -/
theorem c8_dispute_witness :
    MatchCard.handleDisputeClick c8Match (some "wrong side") =
      some { matchId := c8Match.id, score1 := 11, score2 := 9,
             action := .dispute,
             reason := MatchCard.normalizeReason (some "wrong side") } :=
  c8_dispute_preserves_score c8Match 11 9 (some "wrong side") rfl rfl

/-- C9: when the resolve action is enabled, the resolve click invokes the
shared score-update callback with action tag `submit` and no reason — the
very call shape the ordinary submit click produces when it is enabled. -/
theorem c9_resolve_uses_submit_tag :
    ∀ (m : MatchCard.MatchDisplay) (p1 p2 : Option Int) (isOrg : Bool),
      (MatchCard.canResolveSubmit m p1 p2 isOrg = true →
        MatchCard.handleResolveClick m p1 p2 isOrg =
          some { matchId := m.id, score1 := p1.getD 0, score2 := p2.getD 0,
                 action := .submit, reason := none }) ∧
      (MatchCard.canSubmit m p1 p2 = true →
        MatchCard.handleSubmitClick m p1 p2 =
          some { matchId := m.id, score1 := p1.getD 0, score2 := p2.getD 0,
                 action := .submit, reason := none }) := by
  intro m p1 p2 isOrg
  constructor
  · intro h
    simp [MatchCard.handleResolveClick, h]
  · intro h
    simp [MatchCard.handleSubmitClick, h]

/-- C9 witness: the organizer resolve click on a concrete disputed match
fires the callback with the `submit` tag and no reason. -/
theorem c9_resolve_witness :
    MatchCard.handleResolveClick c9Match (some 4) (some 6) true =
      some { matchId := c9Match.id, score1 := (some (4 : Int)).getD 0,
             score2 := (some (6 : Int)).getD 0, action := .submit,
             reason := none } :=
  (c9_resolve_uses_submit_tag c9Match (some 4) (some 6) true).1 (by decide)

/-- C10: the two winner flags are never both true; a team is flagged winner
only when both scores are present and its score strictly exceeds the
opponent's; equal stored scores flag neither team. -/
theorem c10_winner_flags_exclusive :
    ∀ m : MatchCard.MatchDisplay,
      (MatchCard.team1IsWinner m && MatchCard.team2IsWinner m) = false ∧
      (MatchCard.team1IsWinner m = true →
        m.score1.isSome = true ∧ m.score2.isSome = true ∧
          m.score2.getD 0 < m.score1.getD 0) ∧
      (MatchCard.team2IsWinner m = true →
        m.score1.isSome = true ∧ m.score2.isSome = true ∧
          m.score1.getD 0 < m.score2.getD 0) ∧
      (m.score1 = m.score2 →
        MatchCard.team1IsWinner m = false ∧
          MatchCard.team2IsWinner m = false) := by
  intro m
  rcases h1 : m.score1 with _ | a <;> rcases h2 : m.score2 with _ | b <;>
    simp [MatchCard.team1IsWinner, MatchCard.team2IsWinner,
          MatchCard.hasScore, h1, h2] <;>
    omega

/-- C10 witness: a concrete match with tied stored scores 5–5 flags neither
team as winner. -/
theorem c10_winner_flags_witness :
    MatchCard.team1IsWinner c10Match = false ∧
    MatchCard.team2IsWinner c10Match = false :=
  (c10_winner_flags_exclusive c10Match).2.2.2 rfl
